import Mathlib

/-!
# SpaceExplorer: verification of the data-normalization pipeline and view filter

Shallow embedding of the core of `src/src/App.jsx`:

* the transformation inside `fetchSolarSystemData` (filter → slice(0,15) →
  indexed map) that turns raw API bodies into display records,
* the search/type filter in the `useEffect` hook,
* the three aggregate statistics (`totalObjects`, `averageDiameter`, `totalMoons`).

Modelling conventions:
* JS numbers are idealized as `ℚ`; optional JSON fields are `Option`;
  the `'Unknown'` string sentinel used for numeric fields is `Option.none`.
* JS truthiness on an optional number (`body.semimajorAxis ? _ : _`) is
  "present and nonzero"; on an optional string it is "present and nonempty";
  an array is always truthy.
* `Number.prototype.toFixed(2)` is `jsToFixed2`, the ECMA-262 rounding:
  the absolute value is rounded to the closest multiple of 1/100, ties to
  the larger candidate, and the sign is reattached (round half away from zero).
* `String.prototype.toLowerCase`/`includes` act on the character list;
  `object.name.toLowerCase()` on a record whose `name` is `undefined` throws,
  so the view filter is `Option`-valued: `none` models the thrown `TypeError`.
-/

namespace SpaceExplorer

/-- A raw body from the Solar System OpenData API, with the fields
`App.jsx` reads.  Every per-record field may be absent. -/
structure RawBody where
  englishName : Option String
  isPlanet : Bool
  bodyType : String
  semimajorAxis : Option ℚ
  meanRadius : Option ℚ
  moons : Option (List Unit)
  discoveryDate : Option String
  deriving Repr, DecidableEq

/-- A normalized display record (the element shape of `transformedData`). -/
structure CelestialObject where
  id : Nat
  name : Option String
  type : String
  distanceFromSun : Option ℚ
  diameter : Option ℚ
  moons : Nat
  discoveryYear : String
  deriving Repr, DecidableEq

/-- ECMA-262 `toFixed(2)` on an idealized real: round `|x|` to two fraction
digits with ties to the larger candidate, then reattach the sign. -/
def jsToFixed2 (x : ℚ) : ℚ :=
  if x < 0 then -(((⌊100 * (-x) + 1/2⌋ : ℤ) : ℚ) / 100)
  else ((⌊100 * x + 1/2⌋ : ℤ) : ℚ) / 100

/-- The retention predicate of the pipeline:
`body.isPlanet || body.bodyType === 'Dwarf Planet'` (App.jsx line 29). -/
def keep (body : RawBody) : Bool :=
  body.isPlanet || body.bodyType == "Dwarf Planet"

/-- Lower-casing used by the search comparison (`toLowerCase()` on the
character content). -/
def jsToLowerChars (s : String) : List Char :=
  s.data.map Char.toLower

/-- The per-record map of the pipeline (App.jsx lines 31–39), at 0-based
position `index` in the surviving list. -/
def transformBody (index : Nat) (body : RawBody) : CelestialObject :=
  { id := index + 1
    name := body.englishName
    type := if body.isPlanet then "planet" else "dwarf planet"
    distanceFromSun :=
      match body.semimajorAxis with
      | some a => if a = 0 then none else some (jsToFixed2 (a / 149598000))
      | none => none
    diameter :=
      match body.meanRadius with
      | some r => if r = 0 then none else some (r * 2)
      | none => none
    moons :=
      match body.moons with
      | some ms => ms.length
      | none => 0
    discoveryYear :=
      match body.discoveryDate with
      | some d => if d = "" then "Prehistoric" else d
      | none => "Prehistoric" }

/-- `map((body, index) => ...)` starting at position `i`. -/
def transformFrom : Nat → List RawBody → List CelestialObject
  | _, [] => []
  | i, body :: rest => transformBody i body :: transformFrom (i + 1) rest

/-- The whole `transformedData` pipeline (App.jsx lines 28–39):
filter, `slice(0, 15)`, indexed map. -/
def normalize (bodies : List RawBody) : List CelestialObject :=
  transformFrom 0 ((bodies.filter keep).take 15)

/-- `object.name.toLowerCase().includes(searchTerm.toLowerCase())`
(App.jsx line 58).  `none` models the `TypeError` thrown when `name`
is `undefined`. -/
def matchesSearch (object : CelestialObject) (searchTerm : String) : Option Bool :=
  match object.name with
  | none => none
  | some n => some (decide (jsToLowerChars searchTerm <:+: jsToLowerChars n))

/-- `objectType === 'all' || object.type === objectType` (App.jsx line 59). -/
def matchesType (object : CelestialObject) (objectType : String) : Bool :=
  objectType == "all" || object.type == objectType

/-- The filter of the `useEffect` hook (App.jsx lines 56–63).  `none` models
the run aborting with a `TypeError` (a record with `undefined` name). -/
def filterObjects : List CelestialObject → String → String → Option (List CelestialObject)
  | [], _, _ => some []
  | object :: rest, searchTerm, objectType =>
    match matchesSearch object searchTerm with
    | none => none
    | some ms =>
      match filterObjects rest searchTerm objectType with
      | none => none
      | some tail =>
        some (if ms && matchesType object objectType then object :: tail else tail)

/-- `totalObjects = celestialObjects.length` (App.jsx line 66). -/
def totalObjects (objects : List CelestialObject) : Nat :=
  objects.length

/-- `typeof obj.diameter === 'number' ? obj.diameter : 0` (App.jsx line 69). -/
def diameterOrZero (object : CelestialObject) : ℚ :=
  match object.diameter with
  | some d => d
  | none => 0

/-- `averageDiameter` (App.jsx lines 67–72): reduce to the sum of diameters
(unknowns as 0), divide by the total count, `toFixed(2)`; `0` when empty. -/
def averageDiameter (objects : List CelestialObject) : ℚ :=
  if 0 < objects.length then
    jsToFixed2 ((objects.foldl (fun sum object => sum + diameterOrZero object) 0) /
      ((totalObjects objects : Nat) : ℚ))
  else 0

/-- `totalMoons` (App.jsx lines 73–75). -/
def totalMoons (objects : List CelestialObject) : Nat :=
  if 0 < objects.length then
    objects.foldl (fun sum object => sum + object.moons) 0
  else 0

/-- The three statistics of the dashboard header. -/
structure Aggregates where
  count : Nat
  avgDiameter : ℚ
  moonsTotal : Nat
  deriving Repr, DecidableEq

/-- The statistics, computed (as in the source) from the canonical dataset. -/
def stats (objects : List CelestialObject) : Aggregates :=
  ⟨totalObjects objects, averageDiameter objects, totalMoons objects⟩

/-- The View Filter contract of the spec: the visible subset together with
the aggregates.  In the source the two parts are the `useEffect` filter and
the statistics computed from `celestialObjects`. -/
def filterAndAggregate (objects : List CelestialObject) (searchTerm objectType : String) :
    Option (List CelestialObject) × Aggregates :=
  (filterObjects objects searchTerm objectType, stats objects)

/-! ## Concrete records used as test inputs -/

/-- A raw body resembling the API's Earth record. -/
def earthRaw : RawBody :=
  ⟨some "Earth", true, "Planet", some 149598023, some 6371, some [(), ()], none⟩

/-- A qualifying raw body with no English-name field. -/
def noNameRaw : RawBody :=
  ⟨none, true, "Planet", none, none, none, none⟩

/-- A qualifying raw body whose numeric fields are present but zero. -/
def zeroRaw : RawBody :=
  ⟨some "Ceres", false, "Dwarf Planet", some 0, some 0, none, some "1801"⟩

/-- A minimal qualifying raw body. -/
def plainRaw : RawBody :=
  ⟨some "P", true, "Planet", none, none, none, none⟩

/-- Twenty qualifying raw bodies. -/
def raw20 : List RawBody :=
  List.replicate 20 plainRaw

/-- A normalized record named Earth. -/
def earthObj : CelestialObject :=
  ⟨1, some "Earth", "planet", none, none, 0, "Prehistoric"⟩

/-- A normalized record named Mars. -/
def marsObj : CelestialObject :=
  ⟨2, some "Mars", "planet", none, none, 0, "Prehistoric"⟩

/-- A record with unknown diameter. -/
def unknownDiamObj : CelestialObject :=
  ⟨1, some "A", "planet", none, none, 0, "Prehistoric"⟩

/-- A record with diameter 10000. -/
def tenKObj : CelestialObject :=
  ⟨2, some "B", "planet", none, some 10000, 0, "Prehistoric"⟩

/-- The two-element dataset of the averaging example. -/
def dsPair : List CelestialObject :=
  [unknownDiamObj, tenKObj]

/-- A small dataset whose records all have names. -/
def dsNamed : List CelestialObject :=
  [earthObj, marsObj]

/-! ## Helper lemmas -/

theorem transformFrom_length (l : List RawBody) (i : Nat) :
    (transformFrom i l).length = l.length := by
  induction l generalizing i with
  | nil => rfl
  | cons b t ih => simp [transformFrom, ih]

theorem transformFrom_getElem? (l : List RawBody) (i j : Nat) :
    (transformFrom i l)[j]? = (l[j]?).map (fun b => transformBody (i + j) b) := by
  induction l generalizing i j with
  | nil => simp [transformFrom]
  | cons b t ih =>
    cases j with
    | zero => simp [transformFrom]
    | succ j =>
      simp only [transformFrom, List.getElem?_cons_succ, ih]
      have : i + 1 + j = i + (j + 1) := by omega
      rw [this]

theorem mem_transformFrom {obj : CelestialObject} :
    ∀ (l : List RawBody) (i : Nat), obj ∈ transformFrom i l →
      ∃ j b, obj = transformBody j b := by
  intro l
  induction l with
  | nil => intro i h; cases h
  | cons b t ih =>
    intro i h
    rw [transformFrom] at h
    rcases List.mem_cons.mp h with h | h
    · exact ⟨i, b, h⟩
    · exact ih _ h

theorem foldl_add_eq_sum (l : List CelestialObject) (a : ℚ) :
    l.foldl (fun sum object => sum + diameterOrZero object) a
      = a + (l.map diameterOrZero).sum := by
  induction l generalizing a with
  | nil => simp
  | cons o t ih => simp [ih, add_assoc]

theorem filterObjects_eq_filter (ds : List CelestialObject) (s c : String)
    (h : ∀ o ∈ ds, o.name ≠ none) :
    filterObjects ds s c
      = some (ds.filter (fun o => (matchesSearch o s).getD false && matchesType o c)) := by
  induction ds with
  | nil => rfl
  | cons o t ih =>
    have hname : o.name ≠ none := h o (List.mem_cons_self o t)
    obtain ⟨n, hn⟩ : ∃ n, o.name = some n := by
      cases hx : o.name with
      | none => exact absurd hx hname
      | some n => exact ⟨n, rfl⟩
    have ht := ih (fun x hx => h x (List.mem_cons_of_mem o hx))
    rw [filterObjects, ht]
    simp [matchesSearch, hn, List.filter_cons]

theorem filterObjects_toLower_congr (ds : List CelestialObject) (s1 s2 c : String)
    (h : jsToLowerChars s1 = jsToLowerChars s2) :
    filterObjects ds s1 c = filterObjects ds s2 c := by
  induction ds with
  | nil => rfl
  | cons o t ih =>
    rw [filterObjects, filterObjects, ih]
    have hms : matchesSearch o s1 = matchesSearch o s2 := by
      rw [matchesSearch, matchesSearch, h]
    rw [hms]

theorem jsToFixed2_nonneg_eq (x : ℚ) (h : 0 ≤ x) :
    jsToFixed2 x = ((round (100 * x) : ℤ) : ℚ) / 100 := by
  rw [jsToFixed2, if_neg (not_lt.mpr h), round_eq]

theorem jsToFixed2_neg_eq (x : ℚ) : jsToFixed2 (-x) = -(jsToFixed2 x) := by
  rcases lt_trichotomy x 0 with hx | hx | hx
  · rw [jsToFixed2, jsToFixed2, if_neg (show ¬(-x < 0) by linarith), if_pos hx, neg_neg]
  · subst hx; norm_num [jsToFixed2]
  · rw [jsToFixed2, jsToFixed2, if_pos (show -x < 0 by linarith),
      if_neg (not_lt.mpr hx.le), neg_neg]

/-! ## Claim theorems -/

/-- Claim C2: the three aggregates computed alongside the filtered view are a
function of the full canonical dataset only, hence identical for any two pairs
of search/category criteria. -/
theorem stats_invariant_to_criteria (ds : List CelestialObject) (s1 c1 s2 c2 : String) :
    (filterAndAggregate ds s1 c1).2 = (filterAndAggregate ds s2 c2).2
    ∧ (filterAndAggregate ds s1 c1).2 = stats ds :=
  ⟨rfl, rfl⟩

/-- Claim C3: the normalizer retains exactly the records accepted by `keep`
(planet flag true or body type exactly "Dwarf Planet"), keeps at most the
first 15 survivors in upstream order, and gives each output record the id
`position + 1`; when at least 15 records qualify the output has exactly 15
entries. -/
theorem normalize_filter_take_ids (raw : List RawBody) :
    (normalize raw).length = min ((raw.filter keep).length) 15
    ∧ (∀ j : Nat, (normalize raw)[j]?
        = (((raw.filter keep).take 15)[j]?).map (fun b => transformBody j b))
    ∧ (∀ (j : Nat) (obj : CelestialObject), (normalize raw)[j]? = some obj → obj.id = j + 1)
    ∧ (15 ≤ (raw.filter keep).length → (normalize raw).length = 15) := by
  refine ⟨?_, ?_, ?_, ?_⟩
  · rw [normalize, transformFrom_length, List.length_take, Nat.min_comm]
  · intro j
    rw [normalize, transformFrom_getElem?, Nat.zero_add]
  · intro j obj h
    rw [normalize, transformFrom_getElem?] at h
    obtain ⟨b, _, hb⟩ := Option.map_eq_some'.mp h
    rw [← hb]
    show 0 + j + 1 = j + 1
    omega
  · intro h15
    rw [normalize, transformFrom_length, List.length_take]
    omega

/-- Witness for C3: twenty qualifying bodies give exactly 15 output entries,
and the entry at position 2 has id 3. -/
theorem normalize_filter_take_ids_witness :
    (normalize raw20).length = 15
    ∧ ((normalize raw20)[2]?).map CelestialObject.id = some 3 := by
  have H := normalize_filter_take_ids raw20
  have h2 : (normalize raw20)[2]? = some (transformBody 2 plainRaw) := by decide
  refine ⟨H.2.2.2 (by decide), ?_⟩
  rw [h2, Option.map_some', H.2.2.1 2 _ h2]

/-- Claim C5: every record the normalizer outputs has category "planet" or
"dwarf planet", and the canonical dataset never has more than 15 entries. -/
theorem normalize_bounded_and_categorized (raw : List RawBody) :
    (normalize raw).length ≤ 15
    ∧ ∀ obj ∈ normalize raw, obj.type = "planet" ∨ obj.type = "dwarf planet" := by
  constructor
  · rw [normalize, transformFrom_length]
    exact List.length_take_le 15 _
  · intro obj h
    obtain ⟨j, b, rfl⟩ := mem_transformFrom _ _ h
    cases hb : b.isPlanet <;> simp [transformBody, hb]

/-- Witness for C5: a singleton qualifying input; its output record's
category is one of the two allowed tags. -/
theorem normalize_bounded_and_categorized_witness :
    (normalize [plainRaw]).length ≤ 15
    ∧ ((transformBody 0 plainRaw).type = "planet"
        ∨ (transformBody 0 plainRaw).type = "dwarf planet") :=
  ⟨(normalize_bounded_and_categorized [plainRaw]).1,
   (normalize_bounded_and_categorized [plainRaw]).2 _ (by decide)⟩

/-- Claim C9: a qualifying raw record with no English-name field is emitted
with an undefined name (not a display string), and every filter invocation on
the resulting dataset aborts (models the `TypeError` from
`object.name.toLowerCase()`) instead of returning a visible subset. -/
theorem missing_name_breaks_filter :
    (normalize [noNameRaw]).length = 1
    ∧ ((normalize [noNameRaw])[0]?).map CelestialObject.name = some none
    ∧ ∀ (s c : String), filterObjects (normalize [noNameRaw]) s c = none :=
  ⟨rfl, rfl, fun _ _ => rfl⟩

/-- Claim C10: a present-but-zero semi-major axis or mean radius produces the
"Unknown" sentinel, not the numeric value 0, because presence is tested by
JS truthiness. -/
theorem zero_numeric_fields_unknown (i : Nat) (b : RawBody) :
    (b.semimajorAxis = some 0 →
      (transformBody i b).distanceFromSun = none
      ∧ (transformBody i b).distanceFromSun ≠ some 0)
    ∧ (b.meanRadius = some 0 →
      (transformBody i b).diameter = none
      ∧ (transformBody i b).diameter ≠ some 0) := by
  constructor
  · intro h
    simp [transformBody, h]
  · intro h
    simp [transformBody, h]

/-- Witness for C10: a record with semi-major axis 0 and mean radius 0 gets
"Unknown" for both derived fields. -/
theorem zero_numeric_fields_unknown_witness :
    ((transformBody 0 zeroRaw).distanceFromSun = none
      ∧ (transformBody 0 zeroRaw).distanceFromSun ≠ some 0)
    ∧ ((transformBody 0 zeroRaw).diameter = none
      ∧ (transformBody 0 zeroRaw).diameter ≠ some 0) :=
  ⟨(zero_numeric_fields_unknown 0 zeroRaw).1 rfl,
   (zero_numeric_fields_unknown 0 zeroRaw).2 rfl⟩

/-- Claim C1: the average-diameter aggregate is the sum of the numeric
diameters (unknowns contributing 0) divided by the total number of entries,
rounded to two fraction digits; 0 on the empty dataset; and the two-element
example with diameters [unknown, 10000] averages to 5000.00. -/
theorem averageDiameter_spec :
    (∀ ds : List CelestialObject, ds ≠ [] →
        averageDiameter ds = jsToFixed2 ((ds.map diameterOrZero).sum / (ds.length : ℚ)))
    ∧ averageDiameter [] = 0
    ∧ averageDiameter dsPair = 5000 := by
  have key : ∀ ds : List CelestialObject, ds ≠ [] →
      averageDiameter ds = jsToFixed2 ((ds.map diameterOrZero).sum / (ds.length : ℚ)) := by
    intro ds h
    rw [averageDiameter, if_pos (List.length_pos.mpr h), foldl_add_eq_sum, zero_add]
    rfl
  refine ⟨key, rfl, ?_⟩
  rw [key dsPair (by decide)]
  have hsum : (dsPair.map diameterOrZero).sum / ((dsPair.length : Nat) : ℚ) = 5000 := by
    norm_num [dsPair, unknownDiamObj, tenKObj, diameterOrZero]
  rw [hsum, jsToFixed2, if_neg (by norm_num)]
  rw [show (⌊(100 : ℚ) * 5000 + 1/2⌋ : ℤ) = 500000 by rw [Int.floor_eq_iff] ; norm_num]
  norm_num

/-- Witness for C1: the nonempty-dataset formula applied to the two-element
example dataset. -/
theorem averageDiameter_spec_witness :
    averageDiameter dsPair = jsToFixed2 ((dsPair.map diameterOrZero).sum / (dsPair.length : ℚ)) :=
  averageDiameter_spec.1 dsPair (by decide)

/-- Counterexample for C6: a present-but-zero semi-major axis does not give
the claimed rounded quotient (it gives the "Unknown" sentinel), and a
present-but-zero mean radius does not give the doubled radius. -/
theorem numeric_presence_counterexample :
    zeroRaw.semimajorAxis = some 0
    ∧ (transformBody 0 zeroRaw).distanceFromSun ≠ some (jsToFixed2 (0 / 149598000))
    ∧ zeroRaw.meanRadius = some 0
    ∧ (transformBody 0 zeroRaw).diameter ≠ some ((0 : ℚ) * 2) := by
  refine ⟨rfl, ?_, rfl, ?_⟩ <;> simp [transformBody, zeroRaw]

/-- Claim C6 (amended): for a present NONZERO semi-major axis, `distanceAU`
is the value divided by 149,598,000 rounded to two fraction digits half away
from zero (for nonnegative inputs `jsToFixed2` is the standard half-up
rounding of 100·x over 100, and it is odd, hence half-away-from-zero); an
absent or zero axis gives the sentinel.  Likewise a present nonzero mean
radius doubles with no rounding; absent or zero gives the sentinel. -/
theorem transform_numeric_fields_spec (i : Nat) (b : RawBody) :
    (∀ a : ℚ, b.semimajorAxis = some a → a ≠ 0 →
        (transformBody i b).distanceFromSun = some (jsToFixed2 (a / 149598000)))
    ∧ ((b.semimajorAxis = none ∨ b.semimajorAxis = some 0) →
        (transformBody i b).distanceFromSun = none)
    ∧ (∀ r : ℚ, b.meanRadius = some r → r ≠ 0 →
        (transformBody i b).diameter = some (r * 2))
    ∧ ((b.meanRadius = none ∨ b.meanRadius = some 0) →
        (transformBody i b).diameter = none)
    ∧ (∀ x : ℚ, 0 ≤ x → jsToFixed2 x = ((round (100 * x) : ℤ) : ℚ) / 100)
    ∧ (∀ x : ℚ, jsToFixed2 (-x) = -(jsToFixed2 x)) := by
  refine ⟨?_, ?_, ?_, ?_, fun x hx => jsToFixed2_nonneg_eq x hx, jsToFixed2_neg_eq⟩
  · intro a ha hne
    simp [transformBody, ha, hne]
  · rintro (h | h) <;> simp [transformBody, h]
  · intro r hr hne
    simp [transformBody, hr, hne]
  · rintro (h | h) <;> simp [transformBody, h]

/-- Witness for C6: the Earth-like raw body gets its axis divided and rounded
and its radius doubled, and `jsToFixed2` agrees with standard rounding at 3. -/
theorem transform_numeric_fields_spec_witness :
    (transformBody 0 earthRaw).distanceFromSun
        = some (jsToFixed2 ((149598023 : ℚ) / 149598000))
    ∧ (transformBody 0 earthRaw).diameter = some ((6371 : ℚ) * 2)
    ∧ jsToFixed2 (3 : ℚ) = ((round ((100 : ℚ) * 3) : ℤ) : ℚ) / 100 := by
  have H := transform_numeric_fields_spec 0 earthRaw
  exact ⟨H.1 149598023 rfl (by decide), H.2.2.1 6371 rfl (by decide),
    H.2.2.2.2.1 3 (by decide)⟩

/-- Counterexample for C7: a qualifying record missing the English-name field
does not degrade to a sentinel — its emitted name is undefined — and the view
filter on the resulting normalized dataset fails instead of producing a
result. -/
theorem totality_counterexample :
    (transformBody 0 noNameRaw).name = none
    ∧ filterObjects (normalize [noNameRaw]) "" "all" = none :=
  ⟨rfl, rfl⟩

/-- Claim C7 (amended): the normalizer is total (bounded output, and missing
numeric, moon and discovery fields degrade to sentinels); the view filter is
total over datasets whose records all have a present name. -/
theorem totality_amended :
    (∀ (i : Nat) (b : RawBody),
        (b.semimajorAxis = none → (transformBody i b).distanceFromSun = none)
        ∧ (b.meanRadius = none → (transformBody i b).diameter = none)
        ∧ (b.moons = none → (transformBody i b).moons = 0)
        ∧ (b.discoveryDate = none → (transformBody i b).discoveryYear = "Prehistoric"))
    ∧ (∀ raw : List RawBody, (normalize raw).length ≤ 15)
    ∧ (∀ (ds : List CelestialObject) (s c : String),
        (∀ o ∈ ds, o.name ≠ none) → (filterObjects ds s c).isSome = true) := by
  refine ⟨?_, ?_, ?_⟩
  · intro i b
    exact ⟨fun h => by simp [transformBody, h], fun h => by simp [transformBody, h],
      fun h => by simp [transformBody, h], fun h => by simp [transformBody, h]⟩
  · intro raw
    rw [normalize, transformFrom_length]
    exact List.length_take_le 15 _
  · intro ds s c h
    rw [filterObjects_eq_filter ds s c h]
    rfl

/-- Witness for C7 (amended): sentinel degradation on a bare record, and a
successful filter run on an all-named dataset. -/
theorem totality_amended_witness :
    (transformBody 0 plainRaw).distanceFromSun = none
    ∧ (transformBody 0 plainRaw).moons = 0
    ∧ (filterObjects dsNamed "a" "planet").isSome = true := by
  have H := totality_amended
  exact ⟨(H.1 0 plainRaw).1 rfl, (H.1 0 plainRaw).2.2.1 rfl,
    H.2.2 dsNamed "a" "planet" (by decide)⟩

/-- Counterexample for C8: on a normalized dataset containing a record with
an undefined name, the empty-search/"all" filter does not return the dataset
— it fails. -/
theorem identity_filter_counterexample :
    filterObjects (normalize [noNameRaw]) "" "all" ≠ some (normalize [noNameRaw]) := by
  decide

/-- Claim C8 (amended): for datasets whose records all have a present name,
filtering with the empty search and the "all" category is the identity. -/
theorem identity_filter_amended (ds : List CelestialObject)
    (h : ∀ o ∈ ds, o.name ≠ none) :
    filterObjects ds "" "all" = some ds := by
  rw [filterObjects_eq_filter ds "" "all" h]
  congr 1
  rw [List.filter_eq_self]
  intro o ho
  obtain ⟨n, hn⟩ : ∃ n, o.name = some n := by
    cases hx : o.name with
    | none => exact absurd hx (h o ho)
    | some n => exact ⟨n, rfl⟩
  simp [matchesSearch, hn, matchesType, jsToLowerChars]

/-- Witness for C8 (amended): the identity filter on a concrete all-named
dataset. -/
theorem identity_filter_amended_witness :
    filterObjects dsNamed "" "all" = some dsNamed :=
  identity_filter_amended dsNamed (by decide)

/-- Counterexample for C4: a normalized dataset (one qualifying record with
no English name) on which the filter yields no visible subset at all, for a
concrete search and category. -/
theorem visible_subset_counterexample :
    (filterObjects (normalize [noNameRaw]) "earth" "all").isSome = false
    ∧ filterObjects (normalize [noNameRaw]) "earth" "all" = none :=
  ⟨rfl, rfl⟩

/-- Claim C4 (amended): for normalized datasets whose records all have a
present name, an object is visible iff its lower-cased name contains the
lower-cased search string and the category is "all" or matches; the visible
subset is a sublist of the dataset (original relative order); and searching
"EARTH" and "earth" give identical results. -/
theorem filterObjects_visible_iff (ds : List CelestialObject) (s c : String)
    (h : ∀ o ∈ ds, o.name ≠ none) :
    (filterObjects ds s c).isSome = true
    ∧ List.Sublist ((filterObjects ds s c).getD []) ds
    ∧ (∀ o, o ∈ (filterObjects ds s c).getD []
        ↔ (o ∈ ds ∧ (∃ n, o.name = some n ∧ jsToLowerChars s <:+: jsToLowerChars n)
            ∧ (c = "all" ∨ o.type = c)))
    ∧ filterObjects ds "EARTH" c = filterObjects ds "earth" c := by
  have hf := filterObjects_eq_filter ds s c h
  refine ⟨by rw [hf]; rfl, ?_, ?_, ?_⟩
  · rw [hf]
    exact List.filter_sublist ds
  · intro o
    rw [hf]
    simp only [Option.getD_some, List.mem_filter, Bool.and_eq_true]
    constructor
    · rintro ⟨ho, hp1, hp2⟩
      refine ⟨ho, ?_, ?_⟩
      · obtain ⟨n, hn⟩ : ∃ n, o.name = some n := by
          cases hx : o.name with
          | none => exact absurd hx (h o ho)
          | some n => exact ⟨n, rfl⟩
        rw [matchesSearch, hn] at hp1
        exact ⟨n, hn, of_decide_eq_true hp1⟩
      · rw [matchesType, Bool.or_eq_true, beq_iff_eq, beq_iff_eq] at hp2
        exact hp2
    · rintro ⟨ho, ⟨n, hn, hinf⟩, hc⟩
      refine ⟨ho, ?_, ?_⟩
      · rw [matchesSearch, hn]
        simpa using hinf
      · rw [matchesType, Bool.or_eq_true, beq_iff_eq, beq_iff_eq]
        exact hc
  · exact filterObjects_toLower_congr ds "EARTH" "earth" c (by decide)

/-- Witness for C4 (amended): on a two-record dataset, searching "ear" with
category "all" succeeds, preserves order, and keeps the Earth record. -/
theorem filterObjects_visible_iff_witness :
    (filterObjects dsNamed "ear" "all").isSome = true
    ∧ List.Sublist ((filterObjects dsNamed "ear" "all").getD []) dsNamed
    ∧ earthObj ∈ (filterObjects dsNamed "ear" "all").getD [] := by
  have H := filterObjects_visible_iff dsNamed "ear" "all" (by decide)
  exact ⟨H.1, H.2.1,
    (H.2.2.1 earthObj).mpr ⟨by decide, ⟨"Earth", rfl, by decide⟩, Or.inl rfl⟩⟩

end SpaceExplorer
